import Mathlib

/-!
Shallow embedding of the Reflexo-V3 appointment backend, covering the
AppointmentService query/write paths, the AppointmentStatus destroy view,
the diu_type data migration, and the RoleHasPermission model constraint.

Timestamps are modelled as integers counting minutes on the configured
time zone's local timeline; a calendar day `d` starts at `dayStart d = d * 1440`.
`timezone.make_aware` attaches the configured zone to a local wall-clock
value, so on this local timeline both the zoned and the unzoned branches of
the source are the identity and the window arithmetic is unchanged.
Times of day (`hour`) are minutes since midnight, `0 ≤ hour < 1440`.
-/

namespace Reflexo

/-- An Appointment row: identity, patient and therapist references,
`appointment_date` as a point on the local timeline, `hour` as minutes
since midnight, an optional status reference, and the soft-delete
timestamp (`none` = active). -/
structure Appointment where
  id : Nat
  patient : Nat
  therapist : Nat
  appointment_date : Int
  hour : Nat
  appointment_status : Option Nat
  deleted_at : Option Int
deriving Repr, DecidableEq

/-- A Ticket row: identity, the one-to-one appointment reference,
the generated ticket number, and the soft-delete timestamp. -/
structure Ticket where
  id : Nat
  appointment : Nat
  ticket_number : Nat
  deleted_at : Option Int
deriving Repr, DecidableEq

/-- An AppointmentStatus row: identity, display name, soft-delete timestamp. -/
structure AppointmentStatusRow where
  id : Nat
  name : String
  deleted_at : Option Int
deriving Repr, DecidableEq

/-- A date-valued filter entry as the service receives it: `valid d` is a
string `datetime.fromisoformat` parses to calendar day `d`; `invalid` is a
non-empty string on which `fromisoformat` raises ValueError. An absent key
and the empty string (both falsy in `if date_str:`) are modelled by the
surrounding `Option` being `none`. -/
inductive DStr
  | valid (day : Int)
  | invalid
deriving Repr, DecidableEq

/-- The filter bag: every key optional, `none` = key absent (or falsy where
the source tests truthiness, see `DStr`). -/
structure Filters where
  appointment_date : Option Int
  appointment_status : Option Nat
  patient : Option Nat
  therapist : Option Nat
  date : Option DStr
  start_date : Option DStr
  end_date : Option DStr
deriving Repr, DecidableEq

/-- Pagination dict: `page` and `page_size` (the source defaults of 1 and 10
are applied by the caller of this model); an empty/absent dict is the
surrounding `Option` being `none`. -/
structure Pagination where
  page : Nat
  page_size : Nat
deriving Repr, DecidableEq

/-- The `{count, results}` payload of the list endpoints. -/
structure ListResponse where
  count : Nat
  results : List Appointment
deriving Repr, DecidableEq

/-- `deleted_at__isnull=True`. -/
def isActive (a : Appointment) : Bool :=
  a.deleted_at.isNone

/-- Python slice `qs[start:end]` with `start = (page-1)*page_size` and
`end = start + page_size` (list_all line 206-208, get_completed 365-367). -/
def pageSlice (page page_size : Nat) (l : List α) : List α :=
  (l.drop ((page - 1) * page_size)).take page_size

/-- The four presence-tested equality filters of `list_all` (lines 192-200). -/
def applyListFilters (qs : List Appointment) (f : Filters) : List Appointment :=
  let qs1 := match f.appointment_date with
    | some d => qs.filter (fun a => a.appointment_date == d)
    | none => qs
  let qs2 := match f.appointment_status with
    | some st => qs1.filter (fun a => a.appointment_status == some st)
    | none => qs1
  let qs3 := match f.patient with
    | some p => qs2.filter (fun a => a.patient == p)
    | none => qs2
  match f.therapist with
  | some t => qs3.filter (fun a => a.therapist == t)
  | none => qs3

/-- The filtered, unsliced queryset of `AppointmentService.list_all`. -/
def listQueryset (store : List Appointment) (filters : Option Filters) : List Appointment :=
  let base := store.filter isActive
  match filters with
  | some f => applyListFilters base f
  | none => base

/-- AppointmentService.list_all (lines 177-220). Note the source slices the
queryset first (line 208) and only then evaluates `queryset.count()`
(line 212), so `count` is the count of the page slice. -/
def list_all (store : List Appointment) (filters : Option Filters)
    (pagination : Option Pagination) : ListResponse :=
  let queryset := match pagination with
    | some p => pageSlice p.page p.page_size (listQueryset store filters)
    | none => listQueryset store filters
  { count := queryset.length, results := queryset }

/-- The canonical status label the completed view resolves. -/
def completadoName : String := "Completado"

/-- `AppointmentStatus.objects.get(name="Completado")` (line 277): zero rows
raise DoesNotExist, which the source catches and turns into `none`; one row
yields its id; several rows raise MultipleObjectsReturned, which escapes to
the outer handler (`.error ()` = the 500 response). The default manager does
not exclude soft-deleted rows. -/
def findCompletedId (statuses : List AppointmentStatusRow) : Except Unit (Option Nat) :=
  match statuses.filter (fun s => s.name == completadoName) with
  | [] => .ok none
  | [s] => .ok (some s.id)
  | _ :: _ :: _ => .error ()

/-- `datetime.fromisoformat` on a date filter entry; ValueError becomes
`.error ()`. -/
def parseDate : DStr → Except Unit Int
  | .valid d => .ok d
  | .invalid => .error ()

/-- Local-timeline instant of `datetime.combine(d, time.min)` for day `d`. -/
def dayStart (d : Int) : Int := d * 1440

/-- The date-window branch of `get_completed_appointments` (lines 303-349):
`date` takes precedence and gives `[D 00:00, D+1 00:00)`; otherwise
`start_date`/`end_date` give the half-open windows of lines 320-349. On the
local timeline `make_aware` is the identity (both zoned and unzoned paths). -/
def applyDateWindow (qs : List Appointment) (f : Filters) : Except Unit (List Appointment) :=
  match f.date with
  | some ds => do
      let d ← parseDate ds
      pure (qs.filter fun a =>
        decide (dayStart d ≤ a.appointment_date ∧ a.appointment_date < dayStart (d + 1)))
  | none =>
      match f.start_date, f.end_date with
      | some sd, some ed => do
          let s ← parseDate sd
          let e ← parseDate ed
          pure (qs.filter fun a =>
            decide (dayStart s ≤ a.appointment_date ∧ a.appointment_date < dayStart (e + 1)))
      | some sd, none => do
          let s ← parseDate sd
          pure (qs.filter fun a => decide (dayStart s ≤ a.appointment_date))
      | none, some ed => do
          let e ← parseDate ed
          pure (qs.filter fun a => decide (a.appointment_date < dayStart (e + 1)))
      | none, none => pure qs

/-- The status-or-fallback filter of the completed view (lines 291-296 and
352-357): `if completed_status_id:` is Python truthiness, so a resolved id
of 0 would also take the `appointment_date < today` fallback. -/
def applyCompletedStatusFilter (qs : List Appointment) (completedId : Option Nat)
    (today : Int) : List Appointment :=
  match completedId with
  | some cid =>
      if cid ≠ 0 then qs.filter (fun a => a.appointment_status == some cid)
      else qs.filter (fun a => decide (a.appointment_date < today))
  | none => qs.filter (fun a => decide (a.appointment_date < today))

/-- The truthiness-guarded patient/therapist filters of the completed view
(lines 298-301): `if key in filters and filters[key]:`. -/
def applyTruthyPartyFilters (qs : List Appointment) (f : Filters) : List Appointment :=
  let qs1 := match f.patient with
    | some p => if p ≠ 0 then qs.filter (fun a => a.patient == p) else qs
    | none => qs
  match f.therapist with
  | some t => if t ≠ 0 then qs1.filter (fun a => a.therapist == t) else qs1
  | none => qs1

/-- The filtered, unsliced queryset of `get_completed_appointments`
(lines 271-357), before `total = queryset.count()`. -/
def completedQueryset (store : List Appointment) (statuses : List AppointmentStatusRow)
    (today : Int) (filters : Option Filters) : Except Unit (List Appointment) := do
  let completedId ← findCompletedId statuses
  let base := store.filter isActive
  match filters with
  | some f =>
      let qs := match f.appointment_status with
        | some st => base.filter (fun a => a.appointment_status == some st)
        | none => applyCompletedStatusFilter base completedId today
      applyDateWindow (applyTruthyPartyFilters qs f) f
  | none => pure (applyCompletedStatusFilter base completedId today)

/-- `order_by('-appointment_date', '-hour')` key (line 367): descending by
date, then descending by hour. -/
def completedLE (a b : Appointment) : Bool :=
  decide (b.appointment_date < a.appointment_date) ||
  (a.appointment_date == b.appointment_date && decide (b.hour ≤ a.hour))

/-- Insertion step of a stable sort by `completedLE`. -/
def insertSorted (x : Appointment) : List Appointment → List Appointment
  | [] => [x]
  | y :: ys => if completedLE x y then x :: y :: ys else y :: insertSorted x ys

/-- Stable sort realising `order_by('-appointment_date', '-hour')`. -/
def sortCompleted (l : List Appointment) : List Appointment :=
  l.foldr insertSorted []

/-- AppointmentService.get_completed_appointments (lines 261-376): resolve
the queryset, take `total = queryset.count()` BEFORE pagination (line 359),
then order and slice. `.error ()` is the outer handler's 500 response
(lines 372-376), which is where the fromisoformat ValueError ends up. -/
def get_completed_appointments (store : List Appointment)
    (statuses : List AppointmentStatusRow) (today : Int) (filters : Option Filters)
    (pagination : Option Pagination) : Except Unit ListResponse := do
  let qs ← completedQueryset store statuses today filters
  let total := qs.length
  let results := match pagination with
    | some p => pageSlice p.page p.page_size (sortCompleted qs)
    | none => qs
  pure { count := total, results := results }

/-- The conflicting-appointments queryset of `check_availability`
(lines 459-466): same date, active, and the two `exclude` calls, with
`end_datetime.time()` being `(hour + duration) % 1440`. -/
def conflictingAppointments (store : List Appointment) (date : Int)
    (hour duration : Nat) : List Appointment :=
  let endTime := (hour + duration) % 1440
  ((store.filter (fun a => a.appointment_date == date && isActive a)).filter
      (fun a => !decide (endTime ≤ a.hour))).filter
    (fun a => !decide (a.hour ≤ hour))

/-- The `{is_available, conflicting_appointments}` payload. -/
structure AvailabilityResponse where
  is_available : Bool
  conflicting_appointments : Nat
deriving Repr, DecidableEq

/-- AppointmentService.check_availability (lines 440-479). -/
def check_availability (store : List Appointment) (date : Int)
    (hour duration : Nat) : AvailabilityResponse :=
  let conflicting := conflictingAppointments store date hour duration
  let avail := conflicting.isEmpty
  { is_available := avail
    conflicting_appointments := if avail then 0 else conflicting.length }

/-- The persisted state the write paths touch. -/
structure Store where
  appointments : List Appointment
  tickets : List Ticket
deriving Repr, DecidableEq

/-- The outcomes of `AppointmentService.create`: the 400 responses of lines
38-41 and 63-66, the 201 of lines 52-56, the 500 of lines 58-61 (ticket
missing), and the generic 500 of lines 68-72. -/
inductive CreateResponse
  | missingField (field : String)
  | invalidData
  | created (ticket_number : Nat)
  | ticketError
  | internalError
deriving Repr, DecidableEq

/-- The create input: which required keys the data dict carries, whether
`AppointmentSerializer.is_valid()` accepts it, and the Appointment record
`serializer.save()` would persist. -/
structure CreateData where
  has_patient : Bool
  has_appointment_date : Bool
  has_hour : Bool
  valid : Bool
  appointment : Appointment
deriving Repr, DecidableEq

/-- Modelled from the spec: `serializer.save()` persists the Appointment and
"a Ticket is expected to be produced as a reactive side effect keyed by the
new Appointment" (the post-save signal is outside this repository); the
signal's outcome is supplied as the `signalTicket` argument. -/
def signalSave (store : Store) (a : Appointment) (signalTicket : Option Ticket) : Store :=
  { appointments := store.appointments ++ [a]
    tickets := match signalTicket with
      | some t => store.tickets ++ [t]
      | none => store.tickets }

/-- AppointmentService.create (lines 22-72). The `@transaction.atomic`
decorator rolls a transaction back only when an exception escapes the
decorated function; every error path here returns a Response normally
(the try/except is inside the atomic block), so the writes made before the
return are committed — the returned Store is the committed state.
`Ticket.objects.get(appointment=appointment)` (line 51): zero rows raise
DoesNotExist (caught, → `ticketError`), several raise
MultipleObjectsReturned which the outer handler turns into the generic 500. -/
def create (store : Store) (data : CreateData) (signalTicket : Option Ticket) :
    Store × CreateResponse :=
  if !data.has_patient then (store, .missingField "patient")
  else if !data.has_appointment_date then (store, .missingField "appointment_date")
  else if !data.has_hour then (store, .missingField "hour")
  else if !data.valid then (store, .invalidData)
  else
    let store1 := signalSave store data.appointment signalTicket
    match store1.tickets.filter (fun t => t.appointment == data.appointment.id) with
    | [] => (store1, .ticketError)
    | [t] => (store1, .created t.ticket_number)
    | _ :: _ :: _ => (store1, .internalError)

/-- Outcomes of get_by_id: 200, 404, or the generic 500. -/
inductive GetResponse
  | ok (a : Appointment)
  | notFound
  | serverError
deriving Repr, DecidableEq

/-- AppointmentService.get_by_id (lines 74-97):
`Appointment.objects.get(id=..., deleted_at__isnull=True)`. -/
def get_by_id (store : Store) (appointment_id : Nat) : GetResponse :=
  match store.appointments.filter
      (fun a => a.id == appointment_id && isActive a) with
  | [] => .notFound
  | [a] => .ok a
  | _ :: _ :: _ => .serverError

/-- Modelled from the spec: `Appointment.soft_delete()` "marks a timestamp
rather than removing the record"; the instance is saved by primary key. -/
def softDeleteAppointment (l : List Appointment) (id : Nat) (now : Int) :
    List Appointment :=
  l.map (fun a => if a.id == id then { a with deleted_at := some now } else a)

/-- Modelled from the spec: `Ticket.soft_delete()` marks the ticket's
deletion timestamp; the instance is saved by primary key. -/
def softDeleteTicket (l : List Ticket) (tid : Nat) (now : Int) : List Ticket :=
  l.map (fun t => if t.id == tid then { t with deleted_at := some now } else t)

/-- Outcomes of delete: 200, 404, or the generic 500. -/
inductive DeleteResponse
  | ok
  | notFound
  | serverError
deriving Repr, DecidableEq

/-- AppointmentService.delete (lines 141-175): fetch the active appointment
(404 on DoesNotExist), soft-delete it, then soft-delete the associated
Ticket if one exists — `except Ticket.DoesNotExist: pass` (line 159-160)
makes a missing ticket a non-error. A MultipleObjectsReturned from either
`get` reaches the outer handler (500); in the ticket case the appointment
stays soft-deleted, as the source has no transaction here. -/
def delete (store : Store) (appointment_id : Nat) (now : Int) :
    Store × DeleteResponse :=
  match store.appointments.filter
      (fun a => a.id == appointment_id && isActive a) with
  | [] => (store, .notFound)
  | [_] =>
      let store1 : Store :=
        { store with
            appointments := softDeleteAppointment store.appointments appointment_id now }
      match store1.tickets.filter (fun t => t.appointment == appointment_id) with
      | [] => (store1, .ok)
      | [t] =>
          ({ store1 with tickets := softDeleteTicket store1.tickets t.id now }, .ok)
      | _ :: _ :: _ => (store1, .serverError)
  | _ :: _ :: _ => (store, .serverError)

/-- Outcomes of AppointmentStatusViewSet.destroy: the 400 that names the
status and its appointment count, the 200, and the generic 500 (which also
covers the Http404 that `get_object` raises into the generic handler). -/
inductive DestroyResponse
  | blocked (name : String) (count : Nat)
  | deleted (name : String)
  | error
deriving Repr, DecidableEq

/-- AppointmentStatusViewSet.destroy (views/appointment_status.py lines
86-122) on the countable path: `get_object` resolves `pk` in the
soft-delete-filtered queryset of `get_queryset`;
`instance.appointment_set.count()` counts ALL appointments referencing the
status (the default manager does not exclude soft-deleted ones); a positive
count returns the 400 naming the status and the count and writes nothing;
otherwise `deleted_at` is set and saved. The "Unknown column" branch is a
database-environment failure and is outside this model. -/
def destroy (statuses : List AppointmentStatusRow) (appointments : List Appointment)
    (pk : Nat) (now : Int) : List AppointmentStatusRow × DestroyResponse :=
  match (statuses.filter (fun s => s.deleted_at.isNone)).filter
      (fun s => s.id == pk) with
  | [] => (statuses, .error)
  | [inst] =>
      let cnt := (appointments.filter (fun a => a.appointment_status == some pk)).length
      if cnt > 0 then (statuses, .blocked inst.name cnt)
      else
        (statuses.map (fun s => if s.id == pk then { s with deleted_at := some now } else s),
          .deleted inst.name)
  | _ :: _ :: _ => (statuses, .error)

/-- A DIUType row created by the migration: autoincrement id and name. -/
structure DIUTypeRow where
  id : Nat
  name : String
deriving Repr, DecidableEq

/-- A histories row as the migration's cursor sees it: id and the string
column `diu_type_id` (NULL = `none`; after the forward pass it holds the
decimal text of the DIUType id, as MySQL stores an integer bound into a
string column). -/
structure HistoryRow where
  id : Nat
  diu_type_id : Option String
deriving Repr, DecidableEq

/-- The state the migration reads and writes: the diutypes table with its
autoincrement counter, and the histories table. -/
structure MigStore where
  diutypes : List DIUTypeRow
  nextDiuTypeId : Nat
  histories : List HistoryRow
deriving Repr, DecidableEq

/-- First-occurrence deduplication, realising `SELECT DISTINCT`. -/
def distinctVals (l : List String) : List String :=
  l.foldl (fun acc v => if v ∈ acc then acc else acc ++ [v]) []

/-- `SELECT DISTINCT diu_type_id FROM histories WHERE diu_type_id IS NOT
NULL AND diu_type_id != ''` (migration lines 10-13). -/
def selectUnique (s : MigStore) : List String :=
  distinctVals ((s.histories.filterMap (fun h => h.diu_type_id)).filter
    (fun v => !(v == "")))

/-- The first loop of `migrate_diu_type_data` (lines 15-23):
`DIUType.objects.get_or_create(name=value)` for each distinct value,
building `diu_type_mapping`. `get_or_create` with several rows of that name
raises MultipleObjectsReturned (`.error ()`). -/
def getOrCreateAll (diutypes : List DIUTypeRow) (nextId : Nat) :
    List String → Except Unit (List DIUTypeRow × Nat × List (String × Nat))
  | [] => .ok (diutypes, nextId, [])
  | v :: rest =>
      match diutypes.filter (fun d => d.name == v) with
      | [] => do
          let (ds, nid, m) ← getOrCreateAll (diutypes ++ [⟨nextId, v⟩]) (nextId + 1) rest
          .ok (ds, nid, (v, nextId) :: m)
      | [d] => do
          let (ds, nid, m) ← getOrCreateAll diutypes nextId rest
          .ok (ds, nid, (v, d.id) :: m)
      | _ :: _ :: _ => .error ()

/-- The second loop of `migrate_diu_type_data` (lines 25-34): for each old
value in order, `UPDATE histories SET diu_type_id = new WHERE diu_type_id =
old`, run against the live table (a later old value sees earlier updates),
accumulating the matched-row counts the source prints as affected rows. -/
def applyUpdates (histories : List HistoryRow) (mapping : List (String × Nat)) :
    List String → List HistoryRow × Nat
  | [] => (histories, 0)
  | v :: rest =>
      match mapping.lookup v with
      | some newId =>
          let affected := (histories.filter (fun h => h.diu_type_id == some v)).length
          let hs := histories.map (fun h =>
            if h.diu_type_id == some v then { h with diu_type_id := some (toString newId) }
            else h)
          let (hs2, n) := applyUpdates hs mapping rest
          (hs2, affected + n)
      | none => applyUpdates histories mapping rest

/-- migrate_diu_type_data (migration 0011, lines 5-34): the forward
transform. Returns the new state and the total number of history rows the
UPDATE statements matched. -/
def migrate_diu_type_data (s : MigStore) : Except Unit (MigStore × Nat) := do
  let vals := selectUnique s
  let (ds, nid, mapping) ← getOrCreateAll s.diutypes s.nextDiuTypeId vals
  let (hs, updated) := applyUpdates s.histories mapping vals
  .ok ({ diutypes := ds, nextDiuTypeId := nid, histories := hs }, updated)

/-- A role_has_permissions row (architect/models/role_has_permission.py). -/
structure RoleHasPermission where
  permission : Nat
  role : Nat
deriving Repr, DecidableEq

/-- Two rows agree on the `unique_together = ['permission', 'role']` key. -/
def samePair (x y : RoleHasPermission) : Bool :=
  x.permission == y.permission && x.role == y.role

/-- The table satisfies the unique_together constraint: no two rows share a
(permission, role) pair. -/
def uniqueTogetherOK : List RoleHasPermission → Bool
  | [] => true
  | x :: rest => !(rest.any (samePair x)) && uniqueTogetherOK rest

/-- The database INSERT under `Meta.unique_together = ['permission',
'role']`: the constraint makes the store reject a row duplicating an
existing (permission, role) pair (`.error ()` = IntegrityError). -/
def insertRoleHasPermission (table : List RoleHasPermission)
    (row : RoleHasPermission) : Except Unit (List RoleHasPermission) :=
  if table.any (samePair row) then .error () else .ok (table ++ [row])

/-! Concrete fixtures used by counterexamples and witnesses. -/

/-- Active appointment 1 at 10:00 on the day starting at instant 0. -/
def apptA : Appointment := ⟨1, 1, 1, 0, 600, none, none⟩

/-- Active appointment 2 at 11:00 on the day starting at instant 0. -/
def apptB : Appointment := ⟨2, 1, 1, 0, 660, none, none⟩

/-- Active appointment 3 at 12:00 on the day starting at instant 0. -/
def apptC : Appointment := ⟨3, 1, 1, 0, 720, none, none⟩

/-- A store of three active appointments. -/
def threeStore : List Appointment := [apptA, apptB, apptC]

/-- C1 — counterexample. The claim says the `count` field returned by
list_all equals the number of non-deleted appointments matching the
supplied filters computed BEFORE the pagination slice, independent of page
and page_size. On a store of three active appointments with no filters and
pagination page = 1, page_size = 2, list_all reports count = 2 (and with
page_size = 1 it reports 1), while three non-deleted appointments match:
the source slices the queryset before calling count(). -/
theorem c1_counterexample :
    (list_all threeStore none (some ⟨1, 2⟩)).count = 2 ∧
    (list_all threeStore none (some ⟨1, 1⟩)).count = 1 ∧
    (threeStore.filter isActive).length = 3 := by
  decide

/-- The create input for the C2 evidence: all required keys present, the
serializer accepts it, and this is the record it persists. -/
def c2Data : CreateData := ⟨true, true, true, true, ⟨10, 1, 1, 0, 600, none, none⟩⟩

/-- C2 — code-bug evidence. On valid create data whose ticket signal
produces no Ticket, create returns the internal ticket error, yet the
committed store contains the new Appointment and no Ticket: the error path
returns a Response instead of raising, so `@transaction.atomic` commits and
the Appointment is left committed without a Ticket. -/
theorem c2_code_bug_eval :
    create ⟨[], []⟩ c2Data none =
      (⟨[⟨10, 1, 1, 0, 600, none, none⟩], []⟩, .ticketError) := by
  decide

/-- The pre-migration store for C3: one history row holding the free-text
value "Copper" and an empty diutypes table. -/
def c3Store : MigStore := ⟨[], 1, [⟨1, some "Copper"⟩]⟩

/-- C3 — counterexample. The claim says a second run of the forward
transform creates no DIUType-equivalent duplicate and updates zero
additional history rows. On a store with one history row "Copper": the
first run creates DIUType (1, "Copper") and rewrites the row to "1"; the
second run treats "1" as a new free-text value, creates a second DIUType
(2, "1") for the same underlying history, and updates the row again
(1 matched row, not 0). -/
theorem c3_counterexample :
    migrate_diu_type_data c3Store =
      .ok (⟨[⟨1, "Copper"⟩], 2, [⟨1, some "1"⟩]⟩, 1) ∧
    migrate_diu_type_data ⟨[⟨1, "Copper"⟩], 2, [⟨1, some "1"⟩]⟩ =
      .ok (⟨[⟨1, "Copper"⟩, ⟨2, "1"⟩], 3, [⟨1, some "2"⟩]⟩, 1) := by
  exact ⟨rfl, rfl⟩

/-- The status table holding the canonical completed row. -/
def completadoStatuses : List AppointmentStatusRow := [⟨2, "Completado", none⟩]

/-- A completed appointment inside the day-20000 window. -/
def c4Appt : Appointment := ⟨7, 1, 1, 28800000, 600, some 2, none⟩

/-- The C4 filter bag: a parsable `date` together with an unparsable
`start_date`. -/
def c4Filters : Filters :=
  ⟨none, none, none, none, some (.valid 20000), some .invalid, none⟩

/-- C4 — counterexample. The claim says every filter bag containing an
unparsable date string under `date`, `start_date`, or `end_date` makes
get_completed_appointments fail. This bag carries an unparsable
`start_date`, yet because a parsable `date` is supplied the precedence
never consults `start_date` and the call returns a normal result. -/
theorem c4_counterexample :
    get_completed_appointments [c4Appt] completadoStatuses 0 (some c4Filters) none =
      .ok ⟨1, [c4Appt]⟩ := by
  rfl

/-- Reduction of an Except bind against an ok value (used to unfold the
do-blocks of the service models). -/
theorem okBind (x : α) (k : α → Except Unit β) :
    (Except.ok x >>= k : Except Unit β) = k x := rfl

/-- An appointment at 10:30 (minute 630) on the day starting at instant 0. -/
def apptHalf : Appointment := ⟨9, 1, 1, 0, 630, none, none⟩

/-- C5 — confirmed. check_availability classifies an existing active
appointment on the requested date as conflicting exactly when its hour is
neither ≥ the requested end time nor ≤ the requested start time (a
point-in-time comparison); is_available holds exactly when no appointment
conflicts; the reported count is 0 when available and the number of
conflicting appointments otherwise; an appointment at 10:30 conflicts with
the 10:00+60min request while one at 11:00 does not. -/
theorem c5_check_availability (store : List Appointment) (date : Int)
    (hour duration : Nat) :
    (∀ a ∈ store, a.appointment_date = date → a.deleted_at = none →
      (a ∈ conflictingAppointments store date hour duration ↔
        ¬((hour + duration) % 1440 ≤ a.hour ∨ a.hour ≤ hour))) ∧
    ((check_availability store date hour duration).is_available = true ↔
      conflictingAppointments store date hour duration = []) ∧
    ((check_availability store date hour duration).is_available = true →
      (check_availability store date hour duration).conflicting_appointments = 0) ∧
    ((check_availability store date hour duration).is_available = false →
      (check_availability store date hour duration).conflicting_appointments =
        (conflictingAppointments store date hour duration).length) ∧
    check_availability [apptHalf] 0 600 60 = ⟨false, 1⟩ ∧
    check_availability [apptB] 0 600 60 = ⟨true, 0⟩ := by
  refine ⟨?_, ?_, ?_, ?_, by decide, by decide⟩
  · intro a ha hd hdel
    simp [conflictingAppointments, List.mem_filter, ha, hd, hdel, isActive,
      not_or]
    exact and_comm
  · simp [check_availability, List.isEmpty_iff]
  · intro h
    simp only [check_availability] at h ⊢
    simp [h]
  · intro h
    simp only [check_availability] at h ⊢
    rcases hc : (conflictingAppointments store date hour duration).isEmpty with _ | _
    · simp [hc]
    · simp [hc] at h

/-- C5 witness: the characterization applied at the concrete 10:30
appointment against the 10:00+60min request. -/
theorem c5_check_availability_witness :
    apptHalf ∈ conflictingAppointments [apptHalf] 0 600 60 ↔
      ¬((600 + 60) % 1440 ≤ apptHalf.hour ∨ apptHalf.hour ≤ 600) := by
  exact (c5_check_availability [apptHalf] 0 600 60).1 apptHalf
    (by simp) rfl rfl

/-- C6 — confirmed. When the filter bag supplies no appointment_status and
exactly one canonical "Completado" row resolves (with a truthy id), the
completed queryset filters by that status conjoined with the other supplied
filters and is independent of `today` (the date fallback admits or excludes
nothing); only when no "Completado" row resolves does it fall back to
`appointment_date < today`. -/
theorem c6_completed_status_precedence (store : List Appointment)
    (statuses : List AppointmentStatusRow) (f : Filters) (today : Int) (cid : Nat)
    (hnost : f.appointment_status = none) :
    (findCompletedId statuses = .ok (some cid) → cid ≠ 0 →
      completedQueryset store statuses today (some f) =
        applyDateWindow (applyTruthyPartyFilters
          ((store.filter isActive).filter
            (fun a => a.appointment_status == some cid)) f) f ∧
      (∀ today2, completedQueryset store statuses today (some f) =
        completedQueryset store statuses today2 (some f)) ∧
      completedQueryset store statuses today none =
        .ok ((store.filter isActive).filter
          (fun a => a.appointment_status == some cid))) ∧
    (findCompletedId statuses = .ok none →
      completedQueryset store statuses today (some f) =
        applyDateWindow (applyTruthyPartyFilters
          ((store.filter isActive).filter
            (fun a => decide (a.appointment_date < today))) f) f) := by
  constructor
  · intro hfind hcid
    refine ⟨?_, ?_, ?_⟩
    · simp [completedQueryset, hfind, hnost, okBind, applyCompletedStatusFilter, hcid]
    · intro today2
      simp [completedQueryset, hfind, hnost, okBind, applyCompletedStatusFilter, hcid]
    · simp [completedQueryset, hfind, okBind, applyCompletedStatusFilter, hcid]
  · intro hfind
    simp [completedQueryset, hfind, hnost, okBind, applyCompletedStatusFilter]

/-- C6 witness: the precedence applied at a concrete store whose status
table resolves "Completado" to id 2. -/
theorem c6_completed_status_precedence_witness :
    completedQueryset [c4Appt, apptA] completadoStatuses 5 (some c4Filters) =
      applyDateWindow (applyTruthyPartyFilters
        (([c4Appt, apptA].filter isActive).filter
          (fun a => a.appointment_status == some 2)) c4Filters) c4Filters := by
  exact (((c6_completed_status_precedence [c4Appt, apptA] completadoStatuses
    c4Filters 5 2 rfl).1 rfl (by decide)).1)

/-- C7 — confirmed. The completed view's date-window precedence: a supplied
`date = D` gives the half-open window `[D 00:00, D+1 00:00)` regardless of
start_date/end_date (an appointment at exactly D 00:00 is included, one at
D+1 00:00 excluded); otherwise start_date and end_date together give
`[s 00:00, e+1 00:00)`; start_date alone gives `[s 00:00, +inf)`; end_date
alone gives `(-inf, e+1 00:00)`. -/
theorem c7_date_window_precedence (qs : List Appointment) (D s e : Int)
    (x1 : Option Int) (x2 x3 x4 : Option Nat) (sd ed : Option DStr) :
    (∃ w, applyDateWindow qs ⟨x1, x2, x3, x4, some (.valid D), sd, ed⟩ = .ok w ∧
      (∀ a, a ∈ w ↔ a ∈ qs ∧ dayStart D ≤ a.appointment_date ∧
        a.appointment_date < dayStart (D + 1)) ∧
      (∀ a, a ∈ qs → a.appointment_date = dayStart D → a ∈ w) ∧
      (∀ a, a.appointment_date = dayStart (D + 1) → a ∉ w)) ∧
    (∃ w, applyDateWindow qs ⟨x1, x2, x3, x4, none, some (.valid s), some (.valid e)⟩ =
        .ok w ∧
      ∀ a, a ∈ w ↔ a ∈ qs ∧ dayStart s ≤ a.appointment_date ∧
        a.appointment_date < dayStart (e + 1)) ∧
    (∃ w, applyDateWindow qs ⟨x1, x2, x3, x4, none, some (.valid s), none⟩ = .ok w ∧
      ∀ a, a ∈ w ↔ a ∈ qs ∧ dayStart s ≤ a.appointment_date) ∧
    (∃ w, applyDateWindow qs ⟨x1, x2, x3, x4, none, none, some (.valid e)⟩ = .ok w ∧
      ∀ a, a ∈ w ↔ a ∈ qs ∧ a.appointment_date < dayStart (e + 1)) := by
  refine ⟨⟨_, rfl, ?_, ?_, ?_⟩, ⟨_, rfl, ?_⟩, ⟨_, rfl, ?_⟩, ⟨_, rfl, ?_⟩⟩
  · intro a
    simp [List.mem_filter]
  · intro a ha hd
    simp only [List.mem_filter]
    refine ⟨ha, ?_⟩
    simp only [decide_eq_true_eq, hd, dayStart]
    constructor
    · exact le_refl _
    · linarith
  · intro a hd
    simp only [List.mem_filter, decide_eq_true_eq, hd]
    intro h
    exact absurd h.2.2 (lt_irrefl _)
  · intro a
    simp [List.mem_filter]
  · intro a
    simp [List.mem_filter]
  · intro a
    simp [List.mem_filter]

/-- C7 witness: the `date` branch applied at day 0 on the three-appointment
store (all of whose appointments sit at instant 0, the start of day 0). -/
theorem c7_date_window_precedence_witness :
    ∃ w, applyDateWindow threeStore ⟨none, none, none, none, some (.valid 0),
        some .invalid, none⟩ = .ok w ∧
      (∀ a, a ∈ w ↔ a ∈ threeStore ∧ dayStart 0 ≤ a.appointment_date ∧
        a.appointment_date < dayStart (0 + 1)) ∧
      (∀ a, a ∈ threeStore → a.appointment_date = dayStart 0 → a ∈ w) ∧
      (∀ a, a.appointment_date = dayStart (0 + 1) → a ∉ w) := by
  exact (c7_date_window_precedence threeStore 0 0 0 none none none none
    (some .invalid) none).1

/-- Reduction of an Except bind against an error value. -/
theorem errBind (k : α → Except Unit β) :
    (Except.error () >>= k : Except Unit β) = Except.error () := rfl

/-- C1 — amended. get_completed_appointments computes `count` from the
filtered queryset before the pagination slice, so it is independent of page
and page_size, and its result slice has length ≤ page_size; list_all,
however, calls count() after slicing, so its `count` equals the length of
the returned slice (≤ page_size) and not in general the pre-slice total. -/
theorem c1_amended (store : List Appointment) (statuses : List AppointmentStatusRow)
    (today : Int) (filters : Option Filters) (page page_size : Nat)
    (hp : 1 ≤ page) (hs : 1 ≤ page_size) :
    (∀ qs, completedQueryset store statuses today filters = .ok qs →
      get_completed_appointments store statuses today filters (some ⟨page, page_size⟩) =
        .ok ⟨qs.length, pageSlice page page_size (sortCompleted qs)⟩ ∧
      (pageSlice page page_size (sortCompleted qs)).length ≤ page_size) ∧
    (list_all store filters (some ⟨page, page_size⟩)).count =
      (list_all store filters (some ⟨page, page_size⟩)).results.length ∧
    (list_all store filters (some ⟨page, page_size⟩)).results.length ≤ page_size := by
  refine ⟨?_, ?_, ?_⟩
  · intro qs hqs
    constructor
    · simp [get_completed_appointments, hqs, okBind]
    · simp only [pageSlice, List.length_take]
      exact min_le_left _ _
  · simp [list_all]
  · simp only [list_all, pageSlice, List.length_take]
    exact min_le_left _ _

/-- C1 amended witness: the amended statement applied with page 1 of size 2
over the three-appointment store (whose completed queryset under the
"Completado" status table is empty). -/
theorem c1_amended_witness :
    (get_completed_appointments threeStore completadoStatuses 0 none (some ⟨1, 2⟩) =
      .ok ⟨(([] : List Appointment)).length, pageSlice 1 2 (sortCompleted [])⟩ ∧
      (pageSlice 1 2 (sortCompleted ([] : List Appointment))).length ≤ 2) ∧
    (list_all threeStore none (some ⟨1, 2⟩)).count =
      (list_all threeStore none (some ⟨1, 2⟩)).results.length ∧
    (list_all threeStore none (some ⟨1, 2⟩)).results.length ≤ 2 := by
  have h := c1_amended threeStore completadoStatuses 0 none 1 2 (by decide) (by decide)
  exact ⟨h.1 [] rfl, h.2.1, h.2.2⟩

/-- C3 — amended. The forward transform is not idempotent: on a store whose
single history row holds a free-text value v (non-empty and distinct from
"1"), the first run creates DIUType (1, v) and rewrites the row to the id
text "1"; the second run treats that id text as a fresh free-text value,
creates a second DIUType (2, "1") for the same underlying history, and
updates the row again (1 matched row, not 0). Only within a single run does
get-or-create avoid duplicate names. -/
theorem c3_amended (v : String) (hne : v ≠ "") (h1 : v ≠ "1") :
    migrate_diu_type_data ⟨[], 1, [⟨1, some v⟩]⟩ =
      .ok (⟨[⟨1, v⟩], 2, [⟨1, some "1"⟩]⟩, 1) ∧
    migrate_diu_type_data ⟨[⟨1, v⟩], 2, [⟨1, some "1"⟩]⟩ =
      .ok (⟨[⟨1, v⟩, ⟨2, "1"⟩], 3, [⟨1, some "2"⟩]⟩, 1) := by
  have hb : (v == "") = false := by simpa using hne
  have hb1 : (v == "1") = false := by simpa using h1
  have ht1 : toString (1 : Nat) = "1" := rfl
  have ht2 : toString (2 : Nat) = "2" := rfl
  constructor
  · simp [migrate_diu_type_data, selectUnique, distinctVals, getOrCreateAll,
      applyUpdates, okBind, hb, ht1, List.lookup]
  · simp [migrate_diu_type_data, selectUnique, distinctVals, getOrCreateAll,
      applyUpdates, okBind, hb1, ht2, List.lookup]

/-- C3 amended witness: the two runs evaluated at the concrete free-text
value "Copper". -/
theorem c3_amended_witness :
    migrate_diu_type_data ⟨[], 1, [⟨1, some "Copper"⟩]⟩ =
      .ok (⟨[⟨1, "Copper"⟩], 2, [⟨1, some "1"⟩]⟩, 1) ∧
    migrate_diu_type_data ⟨[⟨1, "Copper"⟩], 2, [⟨1, some "1"⟩]⟩ =
      .ok (⟨[⟨1, "Copper"⟩, ⟨2, "1"⟩], 3, [⟨1, some "2"⟩]⟩, 1) := by
  exact c3_amended "Copper" (by decide) (by decide)

/-- C4 — amended. get_completed_appointments fails with the error response
(the ValueError surfaces as the operation's 500 result, not as a normal
result) exactly when the date precedence actually consults an unparsable
string: an unparsable `date`; or, with `date` absent, an unparsable
`start_date`; or, with `date` absent and `start_date` absent or parsable,
an unparsable `end_date`. An unparsable string under a key the precedence
never consults (e.g. `start_date` when `date` is supplied) is ignored. -/
theorem c4_amended (store : List Appointment) (statuses : List AppointmentStatusRow)
    (today : Int) (f : Filters) (pagination : Option Pagination)
    (hreach : f.date = some .invalid ∨
      (f.date = none ∧ (f.start_date = some .invalid ∨
        ((f.start_date = none ∨ (∃ d, f.start_date = some (.valid d))) ∧
          f.end_date = some .invalid)))) :
    get_completed_appointments store statuses today (some f) pagination = .error () := by
  have hwin : ∀ qs, applyDateWindow qs f = .error () := by
    intro qs
    rcases hreach with hd | ⟨hd, hs | ⟨hs, he⟩⟩
    · simp [applyDateWindow, hd, parseDate, errBind]
    · rcases hend : f.end_date with _ | ed
      · simp [applyDateWindow, hd, hs, hend, parseDate, errBind]
      · simp [applyDateWindow, hd, hs, hend, parseDate, errBind]
    · rcases hs with hs | ⟨d, hs⟩
      · simp [applyDateWindow, hd, hs, he, parseDate, errBind]
      · simp [applyDateWindow, hd, hs, he, parseDate, errBind, okBind]
  rcases hf : findCompletedId statuses with u | oid
  · cases u
    simp [get_completed_appointments, completedQueryset, hf, errBind]
  · simp [get_completed_appointments, completedQueryset, hf, okBind, hwin, errBind]

/-- C4 amended witness: an unparsable `date` filter makes the call fail. -/
theorem c4_amended_witness :
    get_completed_appointments [] completadoStatuses 0
      (some ⟨none, none, none, none, some .invalid, none, none⟩) none =
      .error () := by
  exact c4_amended [] completadoStatuses 0
    ⟨none, none, none, none, some .invalid, none, none⟩ none (Or.inl rfl)

/-- A page slice only returns elements of the underlying list. -/
theorem pageSlice_subset (page page_size : Nat) (l : List α) :
    pageSlice page page_size l ⊆ l := by
  intro x hx
  exact List.drop_subset _ _ (List.take_subset _ _ hx)

/-- The list_all filters only narrow the queryset. -/
theorem applyListFilters_subset (qs : List Appointment) (f : Filters) :
    applyListFilters qs f ⊆ qs := by
  intro x hx
  obtain ⟨ad, ast, pat, ther, dt, sd, ed⟩ := f
  unfold applyListFilters at hx
  rcases ad with _ | d <;> rcases ast with _ | st <;>
    rcases pat with _ | p <;> rcases ther with _ | t <;>
    simp only [List.mem_filter] at hx <;> tauto

/-- The list_all queryset only contains active appointments of the store. -/
theorem listQueryset_subset (store : List Appointment) (filters : Option Filters) :
    listQueryset store filters ⊆ store.filter isActive := by
  unfold listQueryset
  rcases filters with _ | f
  · exact fun x hx => hx
  · exact applyListFilters_subset _ f

/-- After soft-deleting appointment `aid`, every row with that id carries
the deletion timestamp. -/
theorem softDeleteAppointment_id (l : List Appointment) (aid : Nat) (now : Int) :
    ∀ x ∈ softDeleteAppointment l aid now, x.id = aid → x.deleted_at = some now := by
  intro x hx hid
  simp only [softDeleteAppointment, List.mem_map] at hx
  rcases hx with ⟨y, hy, rfl⟩
  by_cases h : y.id = aid
  · simp [h]
  · simp only [beq_iff_eq, h, if_false] at hid ⊢

/-- The store-side postconditions of a soft delete of appointment `aid`:
the row count is unchanged, every row with that id is timestamped, the
active-and-id filter is empty, and no list_all result carries that id. -/
theorem softDelete_store_post (appts : List Appointment) (aid : Nat) (now : Int) :
    (softDeleteAppointment appts aid now).length = appts.length ∧
    (softDeleteAppointment appts aid now).filter
      (fun x => x.id == aid && isActive x) = [] ∧
    (∀ filters pagination, ∀ x ∈ (list_all (softDeleteAppointment appts aid now)
      filters pagination).results, x.id ≠ aid) := by
  refine ⟨by simp [softDeleteAppointment], ?_, ?_⟩
  · rw [List.filter_eq_nil_iff]
    intro x hx
    simp only [Bool.and_eq_true, beq_iff_eq, not_and]
    intro hid
    have hdel := softDeleteAppointment_id appts aid now x hx hid
    simp [isActive, hdel]
  · intro filters pagination x hx hid
    have hx2 : x ∈ (softDeleteAppointment appts aid now).filter isActive := by
      simp only [list_all] at hx
      rcases pagination with _ | p
      · exact listQueryset_subset _ _ hx
      · exact listQueryset_subset _ _ (pageSlice_subset _ _ _ hx)
    rcases List.mem_filter.mp hx2 with ⟨hmem, hact⟩
    have hdel := softDeleteAppointment_id appts aid now x hmem hid
    simp [isActive, hdel] at hact

/-- C8 — confirmed. Deleting an existing active Appointment soft-deletes it
(the record stays in the table, timestamped), soft-deletes the associated
Ticket when one exists, succeeds equally when no Ticket exists, and
afterwards the appointment is NotFound under get_by_id and absent from
every list_all result. -/
theorem c8_soft_delete (appts : List Appointment) (tickets : List Ticket)
    (a : Appointment) (now : Int)
    (hfind : appts.filter (fun x => x.id == a.id && isActive x) = [a])
    (htk : tickets.filter (fun t => t.appointment == a.id) = [] ∨
      ∃ t0, tickets.filter (fun t => t.appointment == a.id) = [t0]) :
    (delete ⟨appts, tickets⟩ a.id now).2 = .ok ∧
    (delete ⟨appts, tickets⟩ a.id now).1.appointments.length = appts.length ∧
    (∀ x ∈ (delete ⟨appts, tickets⟩ a.id now).1.appointments,
      x.id = a.id → x.deleted_at = some now) ∧
    (∀ t ∈ (delete ⟨appts, tickets⟩ a.id now).1.tickets,
      t.appointment = a.id → t.deleted_at = some now) ∧
    get_by_id (delete ⟨appts, tickets⟩ a.id now).1 a.id = .notFound ∧
    (∀ filters pagination, ∀ x ∈ (list_all
      (delete ⟨appts, tickets⟩ a.id now).1.appointments filters pagination).results,
      x.id ≠ a.id) := by
  have hpost := softDelete_store_post appts a.id now
  rcases htk with htk0 | ⟨t0, htk1⟩
  · have hD : delete ⟨appts, tickets⟩ a.id now =
        (⟨softDeleteAppointment appts a.id now, tickets⟩, .ok) := by
      simp [delete, hfind, htk0]
    rw [hD]
    refine ⟨rfl, hpost.1, softDeleteAppointment_id appts a.id now, ?_, ?_, hpost.2.2⟩
    · intro t ht hta
      have := List.filter_eq_nil_iff.mp htk0 t ht
      simp [hta] at this
    · simp [get_by_id, hpost.2.1]
  · have hD : delete ⟨appts, tickets⟩ a.id now =
        (⟨softDeleteAppointment appts a.id now,
          softDeleteTicket tickets t0.id now⟩, .ok) := by
      simp [delete, hfind, htk1]
    rw [hD]
    refine ⟨rfl, hpost.1, softDeleteAppointment_id appts a.id now, ?_, ?_, hpost.2.2⟩
    · intro t ht hta
      simp only [softDeleteTicket, List.mem_map] at ht
      rcases ht with ⟨y, hy, rfl⟩
      by_cases h : y.id = t0.id
      · simp [h]
      · simp only [beq_iff_eq, h, if_false] at hta ⊢
        have hyf : y ∈ tickets.filter (fun t => t.appointment == a.id) :=
          List.mem_filter.mpr ⟨hy, by simp [hta]⟩
        rw [htk1] at hyf
        have hy0 : y = t0 := by simpa using hyf
        exact absurd (congrArg Ticket.id hy0) h
    · simp [get_by_id, hpost.2.1]

/-- A concrete ticket for appointment 1. -/
def ticketA : Ticket := ⟨5, 1, 100, none⟩

/-- C8 witness: the delete postconditions applied to a store holding the
active appointment 1 and its ticket. -/
theorem c8_soft_delete_witness :
    (delete ⟨[apptA], [ticketA]⟩ apptA.id 99).2 = .ok ∧
    (delete ⟨[apptA], [ticketA]⟩ apptA.id 99).1.appointments.length =
      [apptA].length ∧
    (∀ x ∈ (delete ⟨[apptA], [ticketA]⟩ apptA.id 99).1.appointments,
      x.id = apptA.id → x.deleted_at = some 99) ∧
    (∀ t ∈ (delete ⟨[apptA], [ticketA]⟩ apptA.id 99).1.tickets,
      t.appointment = apptA.id → t.deleted_at = some 99) ∧
    get_by_id (delete ⟨[apptA], [ticketA]⟩ apptA.id 99).1 apptA.id = .notFound ∧
    (∀ filters pagination, ∀ x ∈ (list_all
      (delete ⟨[apptA], [ticketA]⟩ apptA.id 99).1.appointments
      filters pagination).results, x.id ≠ apptA.id) := by
  exact c8_soft_delete [apptA] [ticketA] apptA 99 (by decide)
    (Or.inr ⟨ticketA, by decide⟩)

/-- C9 — confirmed. destroy on an existing active status with at least one
associated (countable) appointment refuses the soft delete with the 400
response naming the status and the count and leaves the status table
unchanged; with zero associated appointments it sets the deletion
timestamp. -/
theorem c9_destroy_blocks (statuses : List AppointmentStatusRow)
    (appointments : List Appointment) (inst : AppointmentStatusRow)
    (pk : Nat) (now : Int)
    (hfind : (statuses.filter (fun s => s.deleted_at.isNone)).filter
      (fun s => s.id == pk) = [inst]) :
    (0 < (appointments.filter (fun a => a.appointment_status == some pk)).length →
      destroy statuses appointments pk now =
        (statuses, .blocked inst.name
          (appointments.filter (fun a => a.appointment_status == some pk)).length)) ∧
    ((appointments.filter (fun a => a.appointment_status == some pk)).length = 0 →
      destroy statuses appointments pk now =
        (statuses.map (fun s => if s.id == pk then { s with deleted_at := some now }
          else s), .deleted inst.name)) := by
  constructor
  · intro hpos
    simp [destroy, hfind, hpos]
  · intro hzero
    simp [destroy, hfind, hzero]

/-- A status row with one associated appointment in the C9 witness store. -/
def statusBusy : AppointmentStatusRow := ⟨3, "Ocupado", none⟩

/-- C9 witness: destroy refuses to delete status 3, which has one
associated appointment, naming it and the count 1. -/
theorem c9_destroy_blocks_witness :
    destroy [statusBusy] [⟨4, 1, 1, 0, 600, some 3, none⟩] 3 50 =
      ([statusBusy], .blocked statusBusy.name 1) := by
  have h := (c9_destroy_blocks [statusBusy] [⟨4, 1, 1, 0, 600, some 3, none⟩]
    statusBusy 3 50 (by decide)).1 (by decide)
  simpa using h

/-- samePair is symmetric in its arguments. -/
theorem samePair_comm (x y : RoleHasPermission) : samePair x y = samePair y x := by
  rw [Bool.eq_iff_iff]
  simp only [samePair, Bool.and_eq_true, beq_iff_eq]
  constructor
  · rintro ⟨h1, h2⟩
    exact ⟨h1.symm, h2.symm⟩
  · rintro ⟨h1, h2⟩
    exact ⟨h1.symm, h2.symm⟩

/-- Appending a row that duplicates no existing (permission, role) pair
preserves the unique_together invariant. -/
theorem uniqueTogetherOK_append (t : List RoleHasPermission) (r : RoleHasPermission)
    (ht : uniqueTogetherOK t = true) (hr : t.any (samePair r) = false) :
    uniqueTogetherOK (t ++ [r]) = true := by
  induction t with
  | nil => rfl
  | cons x rest ih =>
      simp only [uniqueTogetherOK, Bool.and_eq_true, Bool.not_eq_true'] at ht
      simp only [List.any_cons, Bool.or_eq_false_iff] at hr
      simp only [List.cons_append, uniqueTogetherOK, Bool.and_eq_true,
        Bool.not_eq_true']
      refine ⟨?_, ih ht.2 hr.2⟩
      simp only [List.append_eq, List.any_append, List.any_cons, List.any_nil,
        Bool.or_eq_false_iff, ht.1]
      refine ⟨trivial, ?_, trivial⟩
      rw [samePair_comm]
      exact hr.1

/-- Under the unique_together invariant, at most one row matches any given
(permission, role) pair. -/
theorem uniqueTogetherOK_atMostOne (t : List RoleHasPermission)
    (ht : uniqueTogetherOK t = true) (p ro : Nat) :
    (t.filter (fun x => x.permission == p && x.role == ro)).length ≤ 1 := by
  induction t with
  | nil => simp
  | cons x rest ih =>
      simp only [uniqueTogetherOK, Bool.and_eq_true, Bool.not_eq_true'] at ht
      by_cases hx : (x.permission == p && x.role == ro) = true
      · rw [List.filter_cons, if_pos hx]
        have hrest : rest.filter (fun y => y.permission == p && y.role == ro) = [] := by
          rw [List.filter_eq_nil_iff]
          intro y hy hyp
          have hxy := List.any_eq_false.mp ht.1 y hy
          simp only [Bool.and_eq_true, beq_iff_eq] at hx hyp
          simp only [samePair, Bool.and_eq_true, beq_iff_eq, not_and] at hxy
          exact hxy (hx.1.trans hyp.1.symm) (hx.2.trans hyp.2.symm)
        simp [hrest]
      · rw [List.filter_cons, if_neg hx]
        exact ih ht.2

/-- C10 — confirmed. The unique_together = ['permission', 'role']
declaration keeps at most one RoleHasPermission row per (role, permission)
pair: the empty table satisfies the invariant, every successful insert
under the constraint preserves it, and under the invariant no pair is
matched by two rows. -/
theorem c10_unique_together :
    uniqueTogetherOK [] = true ∧
    (∀ t r t2, uniqueTogetherOK t = true → insertRoleHasPermission t r = .ok t2 →
      uniqueTogetherOK t2 = true) ∧
    (∀ t, uniqueTogetherOK t = true → ∀ p ro,
      (t.filter (fun x => x.permission == p && x.role == ro)).length ≤ 1) := by
  refine ⟨rfl, ?_, uniqueTogetherOK_atMostOne⟩
  intro t r t2 ht hins
  unfold insertRoleHasPermission at hins
  rcases hany : t.any (samePair r) with _ | _
  · rw [hany] at hins
    simp only [Bool.false_eq_true, if_false, Except.ok.injEq] at hins
    rw [← hins]
    exact uniqueTogetherOK_append t r ht hany
  · rw [hany] at hins
    simp at hins

/-- C10 witness: inserting (permission 1, role 2) into the empty table
satisfies the invariant. -/
theorem c10_unique_together_witness :
    uniqueTogetherOK [⟨1, 2⟩] = true := by
  exact c10_unique_together.2.1 [] ⟨1, 2⟩ [⟨1, 2⟩] rfl rfl

end Reflexo


